import Mathlib

/-!
Verification of the metric resolution, aggregation and reactivity scoring
engine of the stat-amg repository.

The TypeScript services are shallowly embedded in Lean:

* JavaScript numbers are modelled as rationals.  All values the verified
  claims inspect are produced by exact integer or short rational
  computations, where double-precision arithmetic and exact arithmetic
  agree.
* Calendar dates (ISO `YYYY-MM-DD` strings at UTC midnight) are modelled
  as integer day numbers: the source builds dates with
  `new Date(s + 'T00:00:00Z')` and advances them with
  `setUTCDate(getUTCDate() + 1)`, which is exactly the successor function
  on UTC day numbers, so the translation is order- and step-faithful.
* `number | null` becomes `Option ℚ`; a rejected promise becomes
  `Except.error`; database reads and writes become explicit environment
  fields and an explicit list of write events.
-/

namespace StatAmg

/-- Region partition key from the data layer: `type Region = 'US' | 'GLOBAL'`. -/
inductive Region where
  | US
  | GLOBAL
deriving DecidableEq, Repr

/-- A `TimeSeriesDatapoint` row: a calendar date (modelled as a UTC day
number) and a nullable numeric value. -/
structure TimeSeriesDatapoint where
  date : ℤ
  value : Option ℚ
deriving DecidableEq, Repr

/-- Lookup of a date in the JavaScript `Map` that `alignTimeSeries` builds
from a series (`new Map(series.map(p => [p.date, p.value]))` followed by
`map.get(dateStr) ?? null`).  A later pair with the same date overwrites an
earlier one; a missing key and a stored `null` value both end up as `null`
after the `?? null`. -/
def seriesLookup (series : List TimeSeriesDatapoint) (d : ℤ) : Option ℚ :=
  match series.reverse.find? (fun p => p.date == d) with
  | some p => p.value
  | none => none

/-- The inclusive day axis `startDate, startDate+1, ..., endDate` built by
the `while (current <= end)` loop of `alignTimeSeries`; empty when
`startDate > endDate`. -/
def dateRange (startDate endDate : ℤ) : List ℤ :=
  (List.range (endDate - startDate + 1).toNat).map (fun i : ℕ => startDate + (i : ℤ))

/-- Result shape of `alignTimeSeries`. -/
structure AlignedSeries where
  alignedValues1 : List (Option ℚ)
  alignedValues2 : List (Option ℚ)
deriving DecidableEq, Repr

/-- `alignTimeSeries` from `src/services/analysisService.ts` (lines 22-45):
walks every day of the inclusive range and looks each series up by date,
pushing `null` for a day the series does not cover. -/
def alignTimeSeries (series1 series2 : List TimeSeriesDatapoint)
    (startDate endDate : ℤ) : AlignedSeries :=
  { alignedValues1 := (dateRange startDate endDate).map (seriesLookup series1)
    alignedValues2 := (dateRange startDate endDate).map (seriesLookup series2) }

/-- The grading scale `type ReactivityGrade = 'A' | 'B' | 'C' | 'D' | 'N/A'`. -/
inductive ReactivityGrade where
  | A
  | B
  | C
  | D
  | NA
deriving DecidableEq, Repr

/-- `mapCorrelationToGrade` from `src/services/analysisService.ts`
(lines 50-56). -/
def mapCorrelationToGrade (correlation : Option ℚ) : ReactivityGrade :=
  match correlation with
  | none => ReactivityGrade.NA
  | some c =>
    if c > 9/10 then ReactivityGrade.A
    else if c > 8/10 then ReactivityGrade.B
    else if c > 7/10 then ReactivityGrade.C
    else ReactivityGrade.D

/-- Result shape of the reactivity scorer. -/
structure ReactivityResult where
  correlation : Option ℚ
  grade : ReactivityGrade
deriving DecidableEq, Repr

/-- Mean of a list of numbers (the `mean` helper of the simple-statistics
library). -/
def listMean (x : List ℚ) : ℚ := x.sum / x.length

/-- Sample variance with Bessel's correction, as computed by
simple-statistics `sampleVariance` (sum of squared deviations divided by
`n - 1`). -/
def sampleVariance (x : List ℚ) : ℚ :=
  ((x.map (fun a => (a - listMean x) ^ 2)).sum) / ((x.length : ℚ) - 1)

/-- Sample covariance, as computed by simple-statistics `sampleCovariance`
(sum of products of deviations divided by `n - 1`). -/
def sampleCovariance (x y : List ℚ) : ℚ :=
  (((x.zip y).map (fun p => (p.1 - listMean x) * (p.2 - listMean y))).sum) /
    ((x.length : ℚ) - 1)

/-- Modelled from the spec: the external simple-statistics
`sampleCorrelation` function (not part of this repository), per spec
section 4.4 the Pearson sample correlation with a non-finite result exactly
when either series has zero variance.  The library throws when the two
samples have different lengths or fewer than two points (`Except.error`);
otherwise it returns `sampleCovariance x y` divided by the product of the
two sample standard deviations.  A zero standard-deviation product makes
the numerator exactly zero as well, so the floating-point division is
`0/0 = NaN`, modelled as `Except.ok none`.  The square root of the
floating-point library is modelled by `Rat.sqrt`; no verified claim
inspects the correlation value on the branch where the square root is
inexact. -/
def ssSampleCorrelation (x y : List ℚ) : Except Unit (Option ℚ) :=
  if x.length ≠ y.length ∨ x.length < 2 then Except.error ()
  else
    let sdProduct := Rat.sqrt (sampleVariance x) * Rat.sqrt (sampleVariance y)
    if sdProduct = 0 then Except.ok none
    else Except.ok (some (sampleCovariance x y / sdProduct))

/-- The pair filter of `calculateSongReactivity` (lines 118-126): keep only
positions where both aligned values are non-null. -/
def filterPairs (aligned : AlignedSeries) : List (ℚ × ℚ) :=
  (aligned.alignedValues1.zip aligned.alignedValues2).filterMap
    (fun p =>
      match p.1, p.2 with
      | some a, some b => some (a, b)
      | _, _ => none)

/-- Steps 3-5 of `calculateSongReactivity`
(`src/services/analysisService.ts` lines 107-153), starting from the two
fetched series: align, filter paired samples, guard on at least two pairs,
compute the correlation (NaN from zero variance is coerced to `0`; a thrown
computation error is caught and yields a `null` correlation), and map the
result to a grade. -/
def reactivityFromSeries (streamingData ugcData : List TimeSeriesDatapoint)
    (startDate endDate : ℤ) : ReactivityResult :=
  let aligned := alignTimeSeries streamingData ugcData startDate endDate
  let pairs := filterPairs aligned
  let streamValues := pairs.map Prod.fst
  let ugcValues := pairs.map Prod.snd
  let correlation : Option ℚ :=
    if streamValues.length > 1 ∧ ugcValues.length > 1 then
      match ssSampleCorrelation streamValues ugcValues with
      | Except.ok (some c) => some c
      | Except.ok none => some 0
      | Except.error _ => none
    else none
  { correlation := correlation, grade := mapCorrelationToGrade correlation }

/-- Environment of one `calculateSongReactivity` call: the outcomes of the
three data-layer fetches (`getDailyStreamingTimeSeriesByUnifiedSongId`,
`getUgcLinksForArtist` projected to its `TIKTOK_SOUND_ID` column, and
`getTikTokTimeSeriesBySoundIds`); `Except.error` models a rejected
promise. -/
structure ReactivityEnv where
  streamingFetch : Except Unit (List TimeSeriesDatapoint)
  ugcLinksFetch : Except Unit (List ℤ)
  ugcFetch : Except Unit (List TimeSeriesDatapoint)
deriving Repr

/-- `calculateSongReactivity` from `src/services/analysisService.ts`
(lines 69-159): fetch streaming data, fetch UGC links, fetch the UGC series
only when at least one linked sound exists, then score; the enclosing
`try/catch` converts any rejection into `{correlation: null, grade: 'N/A'}`,
so the function always resolves. -/
def calculateSongReactivity (env : ReactivityEnv) (startDate endDate : ℤ) :
    ReactivityResult :=
  match env.streamingFetch with
  | Except.error _ => { correlation := none, grade := ReactivityGrade.NA }
  | Except.ok streamingData =>
    match env.ugcLinksFetch with
    | Except.error _ => { correlation := none, grade := ReactivityGrade.NA }
    | Except.ok tiktokSoundIds =>
      match (if tiktokSoundIds.length > 0 then env.ugcFetch else Except.ok []) with
      | Except.error _ => { correlation := none, grade := ReactivityGrade.NA }
      | Except.ok ugcData => reactivityFromSeries streamingData ugcData startDate endDate

/-- `calculatePercentageChange` from `src/services/artistMetricsService.ts`
(lines 258-269): null operands are coerced to `0`; a zero previous value
yields `null` (never infinity, the function is total into `Option ℚ`). -/
def calculatePercentageChange (current previous : Option ℚ) : Option ℚ :=
  let currentVal := current.getD 0
  let previousVal := previous.getD 0
  if previousVal = 0 then none
  else some ((currentVal - previousVal) / previousVal)

/-- `WeeklyMetricComparison` from the data layer: both weekly values are
nullable. -/
structure WeeklyMetricComparison where
  thisWeek : Option ℚ
  lastWeek : Option ℚ
deriving DecidableEq, Repr

/-- The emptiness test of `getMetricsWithFallback`
(`src/services/artistMetricsService.ts` lines 213-214):
`(thisWeek ?? 0) === 0 && (lastWeek ?? 0) === 0`. -/
def trackMetricsAreEmpty (m : WeeklyMetricComparison) : Prop :=
  m.thisWeek.getD 0 = 0 ∧ m.lastWeek.getD 0 = 0

instance (m : WeeklyMetricComparison) : Decidable (trackMetricsAreEmpty m) :=
  inferInstanceAs (Decidable (_ ∧ _))

/-- `getMetricsWithFallback` from `src/services/artistMetricsService.ts`
(lines 207-248).  `fallbackFetch` is the outcome of
`getWeeklyAudioMetricsBySpotifyAccountId` (`Except.error` models a rejected
promise, `Except.ok none` a missing artist-level record); it is consulted
only on the fallback path.  The fallback record is used verbatim with its
nulls coerced to `0`; on the non-empty path the track-level sums are
returned with the same coercion. -/
def getMetricsWithFallback (trackAggregatedMetrics : WeeklyMetricComparison)
    (fallbackFetch : Except Unit (Option WeeklyMetricComparison)) :
    Except Unit WeeklyMetricComparison :=
  if trackMetricsAreEmpty trackAggregatedMetrics then
    match fallbackFetch with
    | Except.ok (some fallbackMetrics) =>
        Except.ok
          { thisWeek := some (fallbackMetrics.thisWeek.getD 0)
            lastWeek := some (fallbackMetrics.lastWeek.getD 0) }
    | Except.ok none => Except.ok { thisWeek := some 0, lastWeek := some 0 }
    | Except.error e => Except.error e
  else
    Except.ok
      { thisWeek := some (trackAggregatedMetrics.thisWeek.getD 0)
        lastWeek := some (trackAggregatedMetrics.lastWeek.getD 0) }

/-- The cache-relevant columns of an `ARTIST_CARDS` row
(`src/data/artistCardData.ts` interface `ArtistCard`).  Timestamps are
modelled as integer milliseconds. -/
structure ArtistCard where
  ID : ℤ
  US_METRICS_THIS_WEEK : Option ℚ
  US_METRICS_LAST_WEEK : Option ℚ
  US_METRICS_PERCENT_CHANGE : Option ℚ
  US_METRICS_UPDATED_AT : Option ℤ
  GLOBAL_METRICS_THIS_WEEK : Option ℚ
  GLOBAL_METRICS_LAST_WEEK : Option ℚ
  GLOBAL_METRICS_PERCENT_CHANGE : Option ℚ
  GLOBAL_METRICS_UPDATED_AT : Option ℤ
deriving DecidableEq, Repr

/-- `CACHE_DURATION_MS` from `src/services/artistCardService.ts`
(12 hours). -/
def CACHE_DURATION_MS : ℤ := 12 * 60 * 60 * 1000

/-- `isCacheValid` from `src/services/artistCardService.ts` (lines 27-34):
a missing region timestamp is invalid; otherwise the age
`now - computedAt` must be strictly below the TTL. -/
def isCacheValid (artistCard : ArtistCard) (region : Region) (now : ℤ) : Bool :=
  let timestamp :=
    match region with
    | Region.US => artistCard.US_METRICS_UPDATED_AT
    | Region.GLOBAL => artistCard.GLOBAL_METRICS_UPDATED_AT
  match timestamp with
  | none => false
  | some t => decide (now - t < CACHE_DURATION_MS)

/-- The `metrics` block returned by `getArtistCardWithMetrics` and by
`getArtistStreamingMetrics`. -/
structure CardMetrics where
  region : Region
  thisWeek : ℚ
  lastWeek : ℚ
  percentageChange : Option ℚ
deriving DecidableEq, Repr

/-- The metrics block built from the cached card columns on a cache hit
(`src/services/artistCardService.ts` lines 66-72): null weekly values are
defaulted to `0`, the percent change is passed through. -/
def cachedMetricsOf (artistCard : ArtistCard) (region : Region) : CardMetrics :=
  { region := region
    thisWeek :=
      (match region with
       | Region.US => artistCard.US_METRICS_THIS_WEEK
       | Region.GLOBAL => artistCard.GLOBAL_METRICS_THIS_WEEK).getD 0
    lastWeek :=
      (match region with
       | Region.US => artistCard.US_METRICS_LAST_WEEK
       | Region.GLOBAL => artistCard.GLOBAL_METRICS_LAST_WEEK).getD 0
    percentageChange :=
      match region with
      | Region.US => artistCard.US_METRICS_PERCENT_CHANGE
      | Region.GLOBAL => artistCard.GLOBAL_METRICS_PERCENT_CHANGE }

/-- Return shape of `getArtistCardWithMetrics`: the card row together with
a possibly-null metrics block. -/
structure ArtistCardWithMetrics where
  card : ArtistCard
  metrics : Option CardMetrics
deriving DecidableEq, Repr

/-- A successful call of `updateArtistCardMetrics` (the only write the
cache path performs). -/
structure CardWriteEvent where
  id : ℤ
  region : Region
  metrics : CardMetrics
deriving DecidableEq, Repr

/-- Environment of one `getArtistCardWithMetrics` call: the stored card row
(`getArtistCardById`), the clock (`Date.now()`), the outcome of a metric
recomputation (`getArtistStreamingMetrics` catches internally and resolves
to `null` on failure, so its outcome is an `Option`, never a rejection),
whether the database update succeeds, and the card row re-read after the
update. -/
structure ArtistCardEnv where
  storedCard : Option ArtistCard
  now : ℤ
  freshMetrics : Option CardMetrics
  updateSucceeds : Bool
  cardAfterUpdate : Option ArtistCard
deriving DecidableEq, Repr

/-- `getArtistCardWithMetrics` from `src/services/artistCardService.ts`
(lines 54-112).  The first component is the call result (`Except.error`
models a rejected promise, re-thrown by the enclosing catch); the second
lists the successful cache writes performed.  Paths: missing card; cache
hit (return stored values, no write); recomputation failure (return the
card with `metrics: null`, no write); successful recomputation (write, then
re-read the card). -/
def getArtistCardWithMetrics (id : ℤ) (region : Region) (env : ArtistCardEnv) :
    Except Unit (Option ArtistCardWithMetrics) × List CardWriteEvent :=
  match env.storedCard with
  | none => (Except.ok none, [])
  | some artistCard =>
    if isCacheValid artistCard region env.now then
      (Except.ok (some { card := artistCard
                         metrics := some (cachedMetricsOf artistCard region) }), [])
    else
      match env.freshMetrics with
      | none => (Except.ok (some { card := artistCard, metrics := none }), [])
      | some fresh =>
        if env.updateSucceeds then
          match env.cardAfterUpdate with
          | none => (Except.error (), [{ id := id, region := region, metrics := fresh }])
          | some updatedCard =>
              (Except.ok (some { card := updatedCard, metrics := some fresh }),
               [{ id := id, region := region, metrics := fresh }])
        else (Except.error (), [])

/-- An `ARTIST_CARDS` row as fetched by the reactivity job
(`getAllArtistsForJob`). -/
structure ArtistForJob where
  ID : ℤ
  NAME : Option String
deriving DecidableEq, Repr

/-- A song row from `getArtistSongs`; `unifiedSongId` may be null
(unmapped). -/
structure SongForJob where
  unifiedSongId : Option ℤ
  name : Option String
deriving DecidableEq, Repr

/-- Per-artist environment of the reactivity batch job: the artist row, the
outcomes of `getArtistSongs` and of `getUgcLinksForArtist` (projected to
its `UNIFIED_SONG_ID` column), and the outcome of `saveReactivityScore`
per unified song id.  `calculateSongReactivity` itself always resolves
(see `calculateSongReactivity`), so it contributes no failure source. -/
structure ArtistJobEnv where
  artist : ArtistForJob
  songsFetch : Except Unit (List SongForJob)
  ugcLinksFetch : Except Unit (List (Option ℤ))
  saveOutcome : ℤ → Except Unit Unit

/-- The two counters of the batch job. -/
structure JobCounters where
  songsProcessed : ℕ
  errorsEncountered : ℕ
deriving DecidableEq, Repr

/-- The JavaScript truthiness filter
`songs.filter(song => song && song.unifiedSongId && songIdsWithUgc.has(song.unifiedSongId))`
of the job (line 136): a null or zero id is falsy. -/
def songHasUgc (songIdsWithUgc : List ℤ) (song : SongForJob) : Bool :=
  match song.unifiedSongId with
  | none => false
  | some sid => decide (sid ≠ 0) && songIdsWithUgc.contains sid

/-- The inner per-song loop body of the job
(`src/jobs/calculateReactivityJob.ts` lines 145-180): compute reactivity
(always resolves) and save; the per-song catch turns a failed save into an
error count and the loop continues. -/
def processSong (aenv : ArtistJobEnv) (c : JobCounters) (song : SongForJob) :
    JobCounters :=
  match song.unifiedSongId with
  | none => c
  | some sid =>
    match aenv.saveOutcome sid with
    | Except.ok _ => { c with songsProcessed := c.songsProcessed + 1 }
    | Except.error _ => { c with errorsEncountered := c.errorsEncountered + 1 }

/-- The per-artist loop body of the job
(`src/jobs/calculateReactivityJob.ts` lines 112-186): fetch songs, fetch
UGC links, skip artists with no songs or no UGC-linked songs, process each
linked song; the per-artist catch turns a failed fetch into an error count
and the loop continues with the next artist. -/
def processArtist (c : JobCounters) (aenv : ArtistJobEnv) : JobCounters :=
  match aenv.songsFetch with
  | Except.error _ => { c with errorsEncountered := c.errorsEncountered + 1 }
  | Except.ok songs =>
    match aenv.ugcLinksFetch with
    | Except.error _ => { c with errorsEncountered := c.errorsEncountered + 1 }
    | Except.ok ugcLinks =>
      if songs.isEmpty then c
      else
        let songIdsWithUgc := ugcLinks.filterMap id
        let songsToProcess := songs.filter (songHasUgc songIdsWithUgc)
        if songsToProcess.isEmpty then c
        else songsToProcess.foldl (processSong aenv) c

/-- `calculateAndStoreReactivityForAllSongs` from
`src/jobs/calculateReactivityJob.ts` (lines 101-195).
`getAllArtistsForJob` catches its own fetch error and returns an empty
list, so the loop always runs on a plain list; every per-item failure is
caught and counted inside the loop, hence the job always resolves.  The
function body `return`s nothing: the promise resolves with `undefined`
(first component); the two counters are internal state that is only
logged at completion (second component, exposed here as the observable
trace of the run). -/
def calculateAndStoreReactivityForAllSongs
    (artistsFetch : Except Unit (List ArtistJobEnv)) : Unit × JobCounters :=
  let artists :=
    match artistsFetch with
    | Except.ok l => l
    | Except.error _ => []
  ((), artists.foldl processArtist { songsProcessed := 0, errorsEncountered := 0 })

/-- Concrete streaming series of the flat-series scenario: seven
consecutive days, each with 100 streams. -/
def streamScenario : List TimeSeriesDatapoint :=
  [{ date := 0, value := some 100 }, { date := 1, value := some 100 },
   { date := 2, value := some 100 }, { date := 3, value := some 100 },
   { date := 4, value := some 100 }, { date := 5, value := some 100 },
   { date := 6, value := some 100 }]

/-- Concrete social series of the flat-series scenario: seven consecutive
days alternating 10 and 20 posts. -/
def ugcScenario : List TimeSeriesDatapoint :=
  [{ date := 0, value := some 10 }, { date := 1, value := some 20 },
   { date := 2, value := some 10 }, { date := 3, value := some 20 },
   { date := 4, value := some 10 }, { date := 5, value := some 20 },
   { date := 6, value := some 10 }]

/-- A stored card row with a fresh US cache timestamp whose cached
US this-week value is null: the cache-hit path coerces it to `0`. -/
def cardNullThisWeek : ArtistCard :=
  { ID := 1
    US_METRICS_THIS_WEEK := none
    US_METRICS_LAST_WEEK := some 3
    US_METRICS_PERCENT_CHANGE := some 2
    US_METRICS_UPDATED_AT := some 0
    GLOBAL_METRICS_THIS_WEEK := none
    GLOBAL_METRICS_LAST_WEEK := none
    GLOBAL_METRICS_PERCENT_CHANGE := none
    GLOBAL_METRICS_UPDATED_AT := none }

/-- A stored card row with all US cache fields populated and timestamp 0. -/
def cardPopulated : ArtistCard :=
  { ID := 2
    US_METRICS_THIS_WEEK := some 500
    US_METRICS_LAST_WEEK := some 400
    US_METRICS_PERCENT_CHANGE := some 2
    US_METRICS_UPDATED_AT := some 0
    GLOBAL_METRICS_THIS_WEEK := none
    GLOBAL_METRICS_LAST_WEEK := none
    GLOBAL_METRICS_PERCENT_CHANGE := none
    GLOBAL_METRICS_UPDATED_AT := none }

/-- A batch-job artist whose fetches succeed and that has exactly one
UGC-linked song whose score save succeeds. -/
def goodArtistJob : ArtistJobEnv :=
  { artist := { ID := 1, NAME := none }
    songsFetch := Except.ok [{ unifiedSongId := some 5, name := none }]
    ugcLinksFetch := Except.ok [some 5]
    saveOutcome := fun _ => Except.ok () }

/-- A cache-read environment with a fresh cache entry for
`cardNullThisWeek` (hit path; the recompute oracle is never consulted). -/
def envCacheHit : ArtistCardEnv :=
  { storedCard := some cardNullThisWeek
    now := 0
    freshMetrics := none
    updateSucceeds := true
    cardAfterUpdate := none }

/-- A cache-read environment with a stale entry for `cardPopulated` and a
failing recomputation (`getArtistStreamingMetrics` resolved to null). -/
def envRefreshFail : ArtistCardEnv :=
  { storedCard := some cardPopulated
    now := CACHE_DURATION_MS
    freshMetrics := none
    updateSucceeds := true
    cardAfterUpdate := none }

/-- A batch-job artist whose `getArtistSongs` fetch rejects. -/
def badArtistJob : ArtistJobEnv :=
  { artist := { ID := 4, NAME := none }
    songsFetch := Except.error ()
    ugcLinksFetch := Except.ok []
    saveOutcome := fun _ => Except.ok () }

/-! Theorems. -/

lemma reactivityFromSeries_grade (streamingData ugcData : List TimeSeriesDatapoint)
    (startDate endDate : ℤ) :
    (reactivityFromSeries streamingData ugcData startDate endDate).grade =
      mapCorrelationToGrade
        ((reactivityFromSeries streamingData ugcData startDate endDate).correlation) := rfl

lemma reactivityFromSeries_correlation (streamingData ugcData : List TimeSeriesDatapoint)
    (startDate endDate : ℤ) :
    (reactivityFromSeries streamingData ugcData startDate endDate).correlation =
      (if 1 < (filterPairs (alignTimeSeries streamingData ugcData startDate endDate)).length then
        (if Rat.sqrt (sampleVariance
              ((filterPairs (alignTimeSeries streamingData ugcData startDate endDate)).map Prod.fst)) *
            Rat.sqrt (sampleVariance
              ((filterPairs (alignTimeSeries streamingData ugcData startDate endDate)).map Prod.snd))
            = 0 then
          some 0
        else
          some (sampleCovariance
              ((filterPairs (alignTimeSeries streamingData ugcData startDate endDate)).map Prod.fst)
              ((filterPairs (alignTimeSeries streamingData ugcData startDate endDate)).map Prod.snd) /
            (Rat.sqrt (sampleVariance
              ((filterPairs (alignTimeSeries streamingData ugcData startDate endDate)).map Prod.fst)) *
             Rat.sqrt (sampleVariance
              ((filterPairs (alignTimeSeries streamingData ugcData startDate endDate)).map Prod.snd)))))
      else none) := by
  unfold reactivityFromSeries ssSampleCorrelation
  simp only [List.length_map]
  by_cases h : 1 < (filterPairs (alignTimeSeries streamingData ugcData startDate endDate)).length
  · rw [if_pos ⟨h, h⟩, if_pos h, if_neg (by omega)]
    split_ifs <;> rfl
  · rw [if_neg (by tauto), if_neg h]

/-- C1: the grade produced by `mapCorrelationToGrade` is `N/A` exactly for a
null correlation; for a non-null correlation the grade is `A` exactly when it
exceeds 0.9, `B` exactly on (0.8, 0.9], `C` exactly on (0.7, 0.8], `D`
otherwise; in particular a correlation of exactly 0.9 grades as `B`,
not `A`. -/
theorem C1_grade_thresholds (v : ℚ) :
    mapCorrelationToGrade none = ReactivityGrade.NA ∧
    mapCorrelationToGrade (some v) ≠ ReactivityGrade.NA ∧
    (mapCorrelationToGrade (some v) = ReactivityGrade.A ↔ 9/10 < v) ∧
    (mapCorrelationToGrade (some v) = ReactivityGrade.B ↔ 8/10 < v ∧ v ≤ 9/10) ∧
    (mapCorrelationToGrade (some v) = ReactivityGrade.C ↔ 7/10 < v ∧ v ≤ 8/10) ∧
    (mapCorrelationToGrade (some v) = ReactivityGrade.D ↔ v ≤ 7/10) ∧
    mapCorrelationToGrade (some (9/10)) = ReactivityGrade.B := by
  have h910 : mapCorrelationToGrade (some ((9 : ℚ)/10)) = ReactivityGrade.B := by
    norm_num [mapCorrelationToGrade]
  refine ⟨rfl, ?_, ?_, ?_, ?_, ?_, h910⟩ <;>
      simp only [mapCorrelationToGrade] <;>
      split_ifs with h1 h2 h3 <;>
      simp_all <;>
      first
        | linarith
        | (intro hx; linarith)

/-- C4: the percent-change computation coerces null inputs to `0`, returns
the relative change when the previous value is non-zero, and returns null
(never infinity: the function is total into an optional rational) whenever
the previous value is zero or null, regardless of the current value. -/
theorem C4_percentage_change (current previous : Option ℚ) :
    (calculatePercentageChange current previous = none ↔ previous.getD 0 = 0) ∧
    (previous.getD 0 ≠ 0 →
      calculatePercentageChange current previous =
        some ((current.getD 0 - previous.getD 0) / previous.getD 0)) ∧
    (previous = none ∨ previous = some 0 →
      calculatePercentageChange current previous = none) := by
  unfold calculatePercentageChange
  dsimp only
  refine ⟨?_, ?_, ?_⟩
  · split_ifs with h <;> simp [h]
  · intro h
    rw [if_neg h]
  · rintro (rfl | rfl) <;> simp

/-- Witness for C4: a concrete non-zero base, 500 against 400, yields a
percent change of 0.25; a zero base with positive current value yields
null. -/
theorem C4_percentage_change_witness :
    calculatePercentageChange (some 500) (some 400) = some (1/4) ∧
    calculatePercentageChange (some 500) (some 0) = none := by
  constructor
  · rw [(C4_percentage_change (some 500) (some 400)).2.1 (by norm_num)]
    norm_num
  · exact (C4_percentage_change (some 500) (some 0)).2.2 (Or.inr rfl)

/-- C3: for a valid range the aligner produces two sequences whose common
length is the inclusive day count of the range, whatever the input
sparsity; position `i` of each output is exactly the lookup of day
`startDate + i` in the corresponding source series, and a day absent from a
source series yields null there, never a repeated prior value. -/
theorem C3_aligner_axis (series1 series2 : List TimeSeriesDatapoint)
    (startDate endDate : ℤ) (h : startDate ≤ endDate) :
    (((alignTimeSeries series1 series2 startDate endDate).alignedValues1.length : ℤ)
        = endDate - startDate + 1) ∧
    (((alignTimeSeries series1 series2 startDate endDate).alignedValues2.length : ℤ)
        = endDate - startDate + 1) ∧
    (∀ i : ℕ, (i : ℤ) < endDate - startDate + 1 →
      (alignTimeSeries series1 series2 startDate endDate).alignedValues1[i]? =
          some (seriesLookup series1 (startDate + (i : ℤ))) ∧
      (alignTimeSeries series1 series2 startDate endDate).alignedValues2[i]? =
          some (seriesLookup series2 (startDate + (i : ℤ)))) ∧
    (∀ (s : List TimeSeriesDatapoint) (d : ℤ),
      (∀ p ∈ s, p.date ≠ d) → seriesLookup s d = none) := by
  have hlen : (dateRange startDate endDate).length = (endDate - startDate + 1).toNat := by
    rw [dateRange, List.length_map, List.length_range]
  have hcast : ((endDate - startDate + 1).toNat : ℤ) = endDate - startDate + 1 := by omega
  refine ⟨?_, ?_, ?_, ?_⟩
  · simp [alignTimeSeries, hlen, hcast]
  · simp [alignTimeSeries, hlen, hcast]
  · intro i hi
    have hi' : i < (endDate - startDate + 1).toNat := by omega
    have hrange : (dateRange startDate endDate)[i]? = some (startDate + (i : ℤ)) := by
      rw [dateRange, List.getElem?_map, List.getElem?_range hi']
      rfl
    constructor <;> simp [alignTimeSeries, List.getElem?_map, hrange]
  · intro s d habsent
    have : s.reverse.find? (fun p => p.date == d) = none := by
      rw [List.find?_eq_none]
      intro p hp
      simpa using habsent p (List.mem_reverse.mp hp)
    simp [seriesLookup, this]

/-- Witness for C3: a three-day range with a sparse first series and an
empty second series; both outputs have length 3 and the uncovered middle
day is null. -/
theorem C3_aligner_axis_witness :
    (((alignTimeSeries [{ date := 0, value := some 5 }] [] 0 2).alignedValues1.length : ℤ)
        = 2 - 0 + 1) ∧
    (alignTimeSeries [{ date := 0, value := some 5 }] [] 0 2).alignedValues1 =
      [some 5, none, none] ∧
    (alignTimeSeries [{ date := 0, value := some 5 }] [] 0 2).alignedValues2 =
      [none, none, none] :=
  ⟨(C3_aligner_axis [{ date := 0, value := some 5 }] [] 0 2 (by decide)).1,
   by decide, by decide⟩

/-- C2: given the two fetched series, the scorer's correlation is null
exactly when fewer than two paired samples (dates where both aligned values
are non-null) remain after filtering; with exactly one paired sample the
result is a null correlation graded `N/A`.  (On a rejected fetch the
function also returns the same sentinel; see the C10 theorem.) -/
theorem C2_correlation_null_iff (streamingData ugcData : List TimeSeriesDatapoint)
    (startDate endDate : ℤ) :
    ((reactivityFromSeries streamingData ugcData startDate endDate).correlation = none ↔
      (filterPairs (alignTimeSeries streamingData ugcData startDate endDate)).length < 2) ∧
    ((filterPairs (alignTimeSeries streamingData ugcData startDate endDate)).length = 1 →
      reactivityFromSeries streamingData ugcData startDate endDate =
        { correlation := none, grade := ReactivityGrade.NA }) := by
  have hiff : (reactivityFromSeries streamingData ugcData startDate endDate).correlation = none ↔
      (filterPairs (alignTimeSeries streamingData ugcData startDate endDate)).length < 2 := by
    rw [reactivityFromSeries_correlation]
    by_cases h : 1 < (filterPairs (alignTimeSeries streamingData ugcData startDate endDate)).length
    · rw [if_pos h]
      constructor
      · intro hc
        split_ifs at hc
      · intro hlt
        omega
    · rw [if_neg h]
      simp only [true_iff]
      omega
  refine ⟨hiff, ?_⟩
  intro h1
  have hc : (reactivityFromSeries streamingData ugcData startDate endDate).correlation = none :=
    hiff.mpr (by omega)
  have hg : (reactivityFromSeries streamingData ugcData startDate endDate).grade =
      ReactivityGrade.NA := by
    rw [reactivityFromSeries_grade, hc]
    rfl
  rw [show reactivityFromSeries streamingData ugcData startDate endDate =
      { correlation := (reactivityFromSeries streamingData ugcData startDate endDate).correlation
        grade := (reactivityFromSeries streamingData ugcData startDate endDate).grade } from rfl,
    hc, hg]

/-- Witness for C2: two streaming days but a single social day leave exactly
one paired sample, and the result is a null correlation graded `N/A`. -/
theorem C2_correlation_null_iff_witness :
    (filterPairs (alignTimeSeries [{ date := 0, value := some 1 }, { date := 1, value := some 2 }]
        [{ date := 0, value := some 3 }] 0 1)).length = 1 ∧
    reactivityFromSeries [{ date := 0, value := some 1 }, { date := 1, value := some 2 }]
        [{ date := 0, value := some 3 }] 0 1 =
      { correlation := none, grade := ReactivityGrade.NA } :=
  ⟨by decide,
   (C2_correlation_null_iff [{ date := 0, value := some 1 }, { date := 1, value := some 2 }]
      [{ date := 0, value := some 3 }] 0 1).2 (by decide)⟩

/-- C5: the artist-level fallback fires exactly when both weeks of the
track-level sum (nulls as 0) are zero; when it fires the fetched
artist-level record is returned verbatim with nulls coerced to 0 and never
blended with the track-level data; when either week is non-zero the result
is the coerced track-level sum, whatever the fallback fetch would have
returned.  The concrete scenario: track sum {0, 0} with fallback
{500, 400} yields the fallback and a percent change of 0.25. -/
theorem C5_fallback_policy (t fb : WeeklyMetricComparison)
    (f : Except Unit (Option WeeklyMetricComparison)) :
    (trackMetricsAreEmpty t →
      getMetricsWithFallback t (Except.ok (some fb)) =
        Except.ok { thisWeek := some (fb.thisWeek.getD 0)
                    lastWeek := some (fb.lastWeek.getD 0) }) ∧
    (¬ trackMetricsAreEmpty t →
      getMetricsWithFallback t f =
        Except.ok { thisWeek := some (t.thisWeek.getD 0)
                    lastWeek := some (t.lastWeek.getD 0) }) ∧
    getMetricsWithFallback { thisWeek := some 0, lastWeek := some 0 }
        (Except.ok (some { thisWeek := some 500, lastWeek := some 400 })) =
      Except.ok { thisWeek := some 500, lastWeek := some 400 } ∧
    calculatePercentageChange (some 500) (some 400) = some (1/4) := by
  refine ⟨?_, ?_, rfl, ?_⟩
  · intro h
    unfold getMetricsWithFallback
    rw [if_pos h]
  · intro h
    unfold getMetricsWithFallback
    rw [if_neg h]
  · unfold calculatePercentageChange
    norm_num

/-- Witness for C5: the fallback path on an all-zero track sum returns the
artist-level record; a non-zero track sum ignores the fallback fetch
entirely (here a fetch that would reject). -/
theorem C5_fallback_policy_witness :
    getMetricsWithFallback { thisWeek := some 0, lastWeek := some 0 }
        (Except.ok (some { thisWeek := some 500, lastWeek := some 400 })) =
      Except.ok { thisWeek := some 500, lastWeek := some 400 } ∧
    getMetricsWithFallback { thisWeek := some 7, lastWeek := none }
        (Except.error ()) =
      Except.ok { thisWeek := some 7, lastWeek := some 0 } :=
  ⟨(C5_fallback_policy { thisWeek := some 0, lastWeek := some 0 }
      { thisWeek := some 500, lastWeek := some 400 } (Except.ok none)).1 (by decide),
   (C5_fallback_policy { thisWeek := some 7, lastWeek := none }
      { thisWeek := none, lastWeek := none } (Except.error ())).2.1 (by decide)⟩

/-- C6: with at least two paired samples and zero sample variance on either
side, the non-finite correlation is treated as 0 (not an error) and the
grade is `D`. -/
theorem C6_zero_variance_grade_D (streamingData ugcData : List TimeSeriesDatapoint)
    (startDate endDate : ℤ)
    (h2 : 1 < (filterPairs (alignTimeSeries streamingData ugcData startDate endDate)).length)
    (hv : sampleVariance
        ((filterPairs (alignTimeSeries streamingData ugcData startDate endDate)).map Prod.fst) = 0 ∨
      sampleVariance
        ((filterPairs (alignTimeSeries streamingData ugcData startDate endDate)).map Prod.snd) = 0) :
    reactivityFromSeries streamingData ugcData startDate endDate =
      { correlation := some 0, grade := ReactivityGrade.D } := by
  have hsqrt0 : Rat.sqrt 0 = 0 := by
    rw [show (0 : ℚ) = 0 * 0 by ring, Rat.sqrt_eq]
    simp
  have hsd : Rat.sqrt (sampleVariance
        ((filterPairs (alignTimeSeries streamingData ugcData startDate endDate)).map Prod.fst)) *
      Rat.sqrt (sampleVariance
        ((filterPairs (alignTimeSeries streamingData ugcData startDate endDate)).map Prod.snd))
      = 0 := by
    rcases hv with h | h <;> rw [h, hsqrt0] <;> ring
  have hc : (reactivityFromSeries streamingData ugcData startDate endDate).correlation =
      some 0 := by
    rw [reactivityFromSeries_correlation, if_pos h2, if_pos hsd]
  have hg : (reactivityFromSeries streamingData ugcData startDate endDate).grade =
      ReactivityGrade.D := by
    rw [reactivityFromSeries_grade, hc]
    norm_num [mapCorrelationToGrade]
  rw [show reactivityFromSeries streamingData ugcData startDate endDate =
      { correlation := (reactivityFromSeries streamingData ugcData startDate endDate).correlation
        grade := (reactivityFromSeries streamingData ugcData startDate endDate).grade } from rfl,
    hc, hg]

/-- Witness for C6: the spec scenario, a flat streaming series of seven
100-values against an alternating social series over seven aligned days,
yields correlation 0 and grade `D`. -/
theorem C6_zero_variance_grade_D_witness :
    reactivityFromSeries streamScenario ugcScenario 0 6 =
      { correlation := some 0, grade := ReactivityGrade.D } := by
  apply C6_zero_variance_grade_D
  · decide
  · left
    have hmap : (filterPairs (alignTimeSeries streamScenario ugcScenario 0 6)).map Prod.fst =
        [100, 100, 100, 100, 100, 100, 100] := by decide
    rw [hmap]
    norm_num [sampleVariance, listMean]

/-- Counterexample for C7: a stored entry with a fresh timestamp but a null
cached this-week value.  The read is a pure cache hit (no recompute, no
write), but the returned metrics carry `0` where the stored entry holds
null, so the values are not returned unchanged. -/
theorem C7_counterexample :
    isCacheValid cardNullThisWeek Region.US 0 = true ∧
    getArtistCardWithMetrics 1 Region.US envCacheHit =
      (Except.ok (some { card := cardNullThisWeek
                         metrics := some { region := Region.US, thisWeek := 0, lastWeek := 3
                                           percentageChange := some 2 } }), []) ∧
    ¬ ∃ m : CardMetrics,
        (getArtistCardWithMetrics 1 Region.US envCacheHit).1 =
          Except.ok (some { card := cardNullThisWeek, metrics := some m }) ∧
        some m.thisWeek = cardNullThisWeek.US_METRICS_THIS_WEEK := by
  refine ⟨rfl, rfl, ?_⟩
  rintro ⟨m, hm, hv⟩
  rw [show (getArtistCardWithMetrics 1 Region.US envCacheHit).1 =
      Except.ok (some { card := cardNullThisWeek
                        metrics := some { region := Region.US, thisWeek := 0, lastWeek := 3
                                          percentageChange := some 2 } }) from rfl] at hm
  simp only [Except.ok.injEq, Option.some.injEq, ArtistCardWithMetrics.mk.injEq,
    true_and] at hm
  rw [← hm] at hv
  simp [cardNullThisWeek] at hv

/-- C7 as amended: on a cache hit (stored entry exists and its
region-specific age is strictly below the TTL) the read returns the stored
values with null weekly fields coerced to 0 and the stored percent change
passed through; it performs no recomputation (the outcome of the recompute
oracle is irrelevant) and writes nothing. -/
theorem C7_cache_hit (id : ℤ) (region : Region) (env : ArtistCardEnv)
    (card : ArtistCard) (hcard : env.storedCard = some card)
    (hvalid : isCacheValid card region env.now = true) :
    getArtistCardWithMetrics id region env =
      (Except.ok (some { card := card, metrics := some (cachedMetricsOf card region) }),
       []) := by
  unfold getArtistCardWithMetrics
  rw [hcard]
  simp [hvalid]

/-- Witness for C7: a populated card read 100 ms after its timestamp is
served from cache with its stored values and an empty write trace. -/
theorem C7_cache_hit_witness :
    getArtistCardWithMetrics 2 Region.US
        { storedCard := some cardPopulated, now := 100, freshMetrics := none
          updateSucceeds := true, cardAfterUpdate := none } =
      (Except.ok (some { card := cardPopulated
                         metrics := some (cachedMetricsOf cardPopulated Region.US) }), []) :=
  C7_cache_hit 2 Region.US _ cardPopulated rfl (by decide)

/-- Counterexample for C8: a stale entry whose recomputation fails.  The
stored entry is left intact (no write), but the read resolves successfully
with a null metrics block instead of propagating a failure to the
caller. -/
theorem C8_counterexample :
    isCacheValid cardPopulated Region.US envRefreshFail.now = false ∧
    getArtistCardWithMetrics 2 Region.US envRefreshFail =
      (Except.ok (some { card := cardPopulated, metrics := none }), []) ∧
    (getArtistCardWithMetrics 2 Region.US envRefreshFail).1 ≠ Except.error () :=
  ⟨by decide, rfl, fun h => Except.noConfusion h⟩

/-- C8 as amended: when the recomputation of a stale entry fails, the
previously stored entry is left intact (no update is written) and the read
resolves successfully, surfacing the failure to the caller in-band as a
null metrics block rather than as a propagated exception. -/
theorem C8_refresh_failure (id : ℤ) (region : Region) (env : ArtistCardEnv)
    (card : ArtistCard) (hcard : env.storedCard = some card)
    (hstale : isCacheValid card region env.now = false)
    (hfail : env.freshMetrics = none) :
    getArtistCardWithMetrics id region env =
      (Except.ok (some { card := card, metrics := none }), []) := by
  unfold getArtistCardWithMetrics
  rw [hcard]
  simp [hstale, hfail]

/-- Witness for C8: the concrete stale environment with a failed
recomputation returns the card with null metrics and writes nothing. -/
theorem C8_refresh_failure_witness :
    getArtistCardWithMetrics 2 Region.US envRefreshFail =
      (Except.ok (some { card := cardPopulated, metrics := none }), []) :=
  C8_refresh_failure 2 Region.US envRefreshFail cardPopulated rfl (by decide) rfl

lemma foldl_processSong_add (aenv : ArtistJobEnv) (l : List SongForJob) (c : JobCounters) :
    l.foldl (processSong aenv) c =
      { songsProcessed := c.songsProcessed +
          (l.foldl (processSong aenv)
            { songsProcessed := 0, errorsEncountered := 0 }).songsProcessed
        errorsEncountered := c.errorsEncountered +
          (l.foldl (processSong aenv)
            { songsProcessed := 0, errorsEncountered := 0 }).errorsEncountered } := by
  induction l generalizing c with
  | nil => simp
  | cons s rest ih =>
    simp only [List.foldl_cons]
    rw [ih (processSong aenv c s),
        ih (processSong aenv { songsProcessed := 0, errorsEncountered := 0 } s)]
    rcases hs : s.unifiedSongId with _ | sid
    · simp [processSong, hs]
    · rcases ho : aenv.saveOutcome sid with u | u <;>
        simp [processSong, hs, ho] <;> omega

lemma processArtist_add (aenv : ArtistJobEnv) (c : JobCounters) :
    processArtist c aenv =
      { songsProcessed := c.songsProcessed +
          (processArtist { songsProcessed := 0, errorsEncountered := 0 } aenv).songsProcessed
        errorsEncountered := c.errorsEncountered +
          (processArtist { songsProcessed := 0, errorsEncountered := 0 } aenv).errorsEncountered } := by
  unfold processArtist
  cases aenv.songsFetch with
  | error e => simp
  | ok songs =>
    cases aenv.ugcLinksFetch with
    | error e => simp
    | ok ugcLinks =>
      by_cases h1 : songs.isEmpty
      · simp [h1]
      · simp only [h1, if_false]
        by_cases h2 : (songs.filter (songHasUgc (ugcLinks.filterMap id))).isEmpty
        · simp [h2]
        · simp only [h2, if_false]
          exact foldl_processSong_add aenv _ c

lemma foldl_processArtist_add (l : List ArtistJobEnv) (c : JobCounters) :
    l.foldl processArtist c =
      { songsProcessed := c.songsProcessed +
          (l.foldl processArtist
            { songsProcessed := 0, errorsEncountered := 0 }).songsProcessed
        errorsEncountered := c.errorsEncountered +
          (l.foldl processArtist
            { songsProcessed := 0, errorsEncountered := 0 }).errorsEncountered } := by
  induction l generalizing c with
  | nil => simp
  | cons a rest ih =>
    simp only [List.foldl_cons]
    rw [ih (processArtist c a),
        ih (processArtist { songsProcessed := 0, errorsEncountered := 0 } a),
        processArtist_add a c]
    simp
    omega

/-- Counterexample for C9: the batch function's resolved value is the same
for every environment (the promise resolves with undefined), so no
summary record with the processed and error counters can be recovered from
what `runAll` returns; the counters are internal state that is only
logged. -/
theorem C9_counterexample :
    ¬ ∃ f : Unit → ℕ × ℕ, ∀ artistsFetch : Except Unit (List ArtistJobEnv),
        f (calculateAndStoreReactivityForAllSongs artistsFetch).1 =
          ((calculateAndStoreReactivityForAllSongs artistsFetch).2.songsProcessed,
           (calculateAndStoreReactivityForAllSongs artistsFetch).2.errorsEncountered) := by
  rintro ⟨f, hf⟩
  have h0 : f () = (0, 0) := hf (Except.ok [])
  have h1 : f () = (1, 0) := hf (Except.ok [goodArtistJob])
  exact absurd (h0.symm.trans h1) (by decide)

/-- C9 as amended: the batch job resolves with no value (void) and never
rejects; its internal counters isolate failures: an entity whose song fetch
rejects adds exactly one error while every other entity, before or after
it, is still processed exactly as it would be alone, and a song whose score
save rejects adds exactly one error and the loop continues. -/
theorem C9_batch_isolation (xs ys : List ArtistJobEnv) (a : ArtistJobEnv)
    (ha : a.songsFetch = Except.error ()) :
    (calculateAndStoreReactivityForAllSongs (Except.ok (xs ++ a :: ys))).1 = () ∧
    (calculateAndStoreReactivityForAllSongs (Except.ok (xs ++ a :: ys))).2 =
      { songsProcessed :=
          (calculateAndStoreReactivityForAllSongs (Except.ok xs)).2.songsProcessed +
            (calculateAndStoreReactivityForAllSongs (Except.ok ys)).2.songsProcessed
        errorsEncountered :=
          (calculateAndStoreReactivityForAllSongs (Except.ok xs)).2.errorsEncountered + 1 +
            (calculateAndStoreReactivityForAllSongs (Except.ok ys)).2.errorsEncountered } ∧
    (∀ (aenv : ArtistJobEnv) (c : JobCounters) (song : SongForJob) (sid : ℤ),
        song.unifiedSongId = some sid → aenv.saveOutcome sid = Except.error () →
        processSong aenv c song =
          { songsProcessed := c.songsProcessed
            errorsEncountered := c.errorsEncountered + 1 }) := by
  refine ⟨rfl, ?_, ?_⟩
  · show (xs ++ a :: ys).foldl processArtist { songsProcessed := 0, errorsEncountered := 0 } = _
    rw [List.foldl_append, List.foldl_cons]
    have hstep : processArtist
        (xs.foldl processArtist { songsProcessed := 0, errorsEncountered := 0 }) a =
        { songsProcessed :=
            (xs.foldl processArtist
              { songsProcessed := 0, errorsEncountered := 0 }).songsProcessed
          errorsEncountered :=
            (xs.foldl processArtist
              { songsProcessed := 0, errorsEncountered := 0 }).errorsEncountered + 1 } := by
      unfold processArtist
      rw [ha]
    rw [hstep, foldl_processArtist_add]
    simp [calculateAndStoreReactivityForAllSongs]
  · intro aenv c song sid hsid hsave
    simp [processSong, hsid, hsave]

/-- Witness for C9: ten entities of which the fourth rejects on its song
fetch; the final counters report the nine successfully processed songs and
one error, and the run resolves. -/
theorem C9_batch_isolation_witness :
    (calculateAndStoreReactivityForAllSongs (Except.ok
        (List.replicate 3 goodArtistJob ++ badArtistJob ::
          List.replicate 6 goodArtistJob))).2 =
      { songsProcessed := 9, errorsEncountered := 1 } := by
  rw [(C9_batch_isolation (List.replicate 3 goodArtistJob) (List.replicate 6 goodArtistJob)
        badArtistJob rfl).2.1]
  rfl

/-- C10: the scorer is total at its public interface.  Its result is always
a well-formed value: the error sentinel or the score computed from the two
fetched series; and whenever an underlying fetch rejects (streaming, UGC
links, or the UGC series when at least one linked sound exists), the caught
error yields exactly the null-correlation `N/A` result. -/
theorem C10_always_resolves (env : ReactivityEnv) (startDate endDate : ℤ) :
    (calculateSongReactivity env startDate endDate =
        { correlation := none, grade := ReactivityGrade.NA } ∨
      ∃ streamingData ugcData, env.streamingFetch = Except.ok streamingData ∧
        calculateSongReactivity env startDate endDate =
          reactivityFromSeries streamingData ugcData startDate endDate) ∧
    ((env.streamingFetch = Except.error () ∨ env.ugcLinksFetch = Except.error () ∨
      (∃ ids, env.ugcLinksFetch = Except.ok ids ∧ 0 < ids.length ∧
        env.ugcFetch = Except.error ())) →
      calculateSongReactivity env startDate endDate =
        { correlation := none, grade := ReactivityGrade.NA }) := by
  obtain ⟨sf, lf, uf⟩ := env
  constructor
  · cases sf with
    | error e => exact Or.inl rfl
    | ok streamingData =>
      cases lf with
      | error e => exact Or.inl rfl
      | ok tiktokSoundIds =>
        by_cases hlen : tiktokSoundIds.length > 0
        · cases uf with
          | error e =>
            left
            simp [calculateSongReactivity, hlen]
          | ok ugcData =>
            right
            exact ⟨streamingData, ugcData, rfl, by simp [calculateSongReactivity, hlen]⟩
        · right
          refine ⟨streamingData, [], rfl, ?_⟩
          simp [calculateSongReactivity, hlen]
  · rintro (h | h | ⟨ids, hok, hlen, herr⟩)
    · simp only at h
      subst h
      rfl
    · simp only at h
      subst h
      cases sf <;> rfl
    · simp only at hok herr
      subst hok
      subst herr
      cases sf with
      | error e => rfl
      | ok streamingData => simp [calculateSongReactivity, hlen]

/-- Witness for C10: a rejected streaming fetch resolves to the null
correlation graded `N/A`. -/
theorem C10_always_resolves_witness :
    calculateSongReactivity
        { streamingFetch := Except.error (), ugcLinksFetch := Except.ok []
          ugcFetch := Except.ok [] } 0 1 =
      { correlation := none, grade := ReactivityGrade.NA } :=
  (C10_always_resolves
    { streamingFetch := Except.error (), ugcLinksFetch := Except.ok []
      ugcFetch := Except.ok [] } 0 1).2 (Or.inl rfl)

end StatAmg
